import Mathlib

/-!
Shallow embedding of the bank-api backend (TypeScript/Prisma) in Lean 4,
with theorems settling the specification claims about its services.

Modelling conventions:
- Monetary amounts are `Int` (minor currency units); the source stores them as
  integer cents.
- The database is a `BankState` of entity lists; Prisma `$transaction` blocks
  are all-or-nothing by construction: every operation returns the (possibly
  updated) state together with an `Except AppError` outcome, and a failure
  raised inside an atomic unit returns the original state unchanged.
  Updates performed *outside* a transaction before a throw (the card
  expiry-flip paths) return the partially-updated state with the error,
  exactly as the source behaves.
- Timestamps are calendar date-times (`DateTime`) on a single UTC clock;
  `DateTime.key` is a strictly monotone linearization used for every
  comparison the source performs on `Date` objects (epoch-millisecond order
  agrees with lexicographic calendar order).
- SHA-256 and JSON parsing are opaque: operations that use them take the
  hash function / parse-success predicate as explicit parameters.
- Random choices (card digits, shuffles) are explicit parameters, so each
  generated artifact is a function of the random input.
-/

namespace BankApi

/-- Account status enum from the Prisma schema. -/
inductive AccountStatus where
  | ACTIVE | FROZEN | CLOSED
deriving DecidableEq, Repr

/-- Transaction type enum. -/
inductive TxnType where
  | CREDIT | DEBIT
deriving DecidableEq, Repr

/-- Transaction / transfer / payment status enum. -/
inductive RecStatus where
  | PENDING | COMPLETED | FAILED
deriving DecidableEq, Repr

/-- Card type enum. -/
inductive CardType where
  | DEBIT | CREDIT
deriving DecidableEq, Repr

/-- Card status enum. -/
inductive CardStatus where
  | ACTIVE | BLOCKED | EXPIRED | CANCELLED
deriving DecidableEq, Repr

/-- Calendar date-time on the (UTC) server clock, millisecond resolution
within the day.  The source compares JS `Date` values, whose epoch-ms order
agrees with lexicographic calendar order; `key` linearizes it. -/
structure DateTime where
  year : Nat
  month : Nat
  day : Nat
  msOfDay : Nat
deriving DecidableEq, Repr

/-- Strictly monotone linearization of a calendar date-time (valid dates have
month ≤ 12, day ≤ 31, msOfDay < 86400000, so the encoding is order-faithful). -/
def DateTime.key (d : DateTime) : Nat :=
  ((d.year * 13 + d.month) * 32 + d.day) * 86400000 + d.msOfDay

/-- Gregorian leap-year test (as implemented by the JS `Date` rollover the
source relies on). -/
def isLeapYear (y : Nat) : Bool :=
  (y % 4 == 0 && y % 100 != 0) || (y % 400 == 0)

/-- Number of days in month `m` (1-based) of year `y`; `new Date(y, m, 0)`
in the source evaluates to this day of month `m`. -/
def daysInMonth (y m : Nat) : Nat :=
  if m = 2 then (if isLeapYear y then 29 else 28)
  else if m = 4 ∨ m = 6 ∨ m = 9 ∨ m = 11 then 30
  else 31

/-- Optional `details` payload of a structured error: the source attaches
plain objects such as `{requested}` or `{available, requested}`. -/
structure ErrDetails where
  available : Option Int := none
  requested : Option Int := none
deriving DecidableEq, Repr

/-- The structured `AppError(status, code, message, details)` of
`src/lib/errors.ts`. -/
structure AppError where
  status : Nat
  code : String
  message : String
  details : Option ErrDetails := none
deriving DecidableEq, Repr

/-- An `Account` row (the fields the verified operations read). -/
structure Account where
  id : Nat
  customerId : Nat
  accountNumber : String
  currency : String
  balance : Int
  status : AccountStatus
deriving DecidableEq, Repr

/-- A `Transaction` ledger row (the fields the verified operations write). -/
structure TransactionRec where
  accountId : Nat
  type : TxnType
  amount : Int
  balanceAfter : Int
  description : String
  status : RecStatus
deriving DecidableEq, Repr

/-- A `Card` row.  The `MM/YY` expiry text is embedded as its parsed pair
(`expMonth`, `expYear`), which is what `split('/').map(Number)` yields. -/
structure Card where
  id : Nat
  accountId : Nat
  type : CardType
  status : CardStatus
  dailyLimit : Int
  expMonth : Nat
  expYear : Nat
deriving DecidableEq, Repr

/-- A `Withdrawal` row. -/
structure WithdrawalRec where
  accountId : Nat
  amount : Int
  channel : String
  status : RecStatus
  createdAt : DateTime
deriving DecidableEq, Repr

/-- A `Transfer` row. -/
structure TransferRec where
  fromAccountId : Nat
  toAccountId : Nat
  amount : Int
  description : Option String
  status : RecStatus
deriving DecidableEq, Repr

/-- A `Payment` row. -/
structure PaymentRec where
  accountId : Nat
  amount : Int
  beneficiaryName : String
  beneficiaryBank : String
  beneficiaryAccount : String
  description : Option String
  status : RecStatus
deriving DecidableEq, Repr

/-- A `Deposit` row. -/
structure DepositRec where
  accountId : Nat
  amount : Int
  source : String
  status : RecStatus
deriving DecidableEq, Repr

/-- The relational store as seen by the verified services. -/
structure BankState where
  accounts : List Account
  transactions : List TransactionRec
  cards : List Card
  withdrawals : List WithdrawalRec
  transfers : List TransferRec
  payments : List PaymentRec
  deposits : List DepositRec
deriving DecidableEq, Repr

/-- `prisma.account.findUnique({where: {id}})`. -/
def findAccount (s : BankState) (id : Nat) : Option Account :=
  s.accounts.find? (fun a => a.id = id)

/-- Effect of a balance increment/decrement on one row. -/
def bumpAccount (id : Nat) (delta : Int) (a : Account) : Account :=
  if a.id = id then { a with balance := a.balance + delta } else a

/-- `account.update({data: {balance: {increment: delta}}})` applied to the
row with the given id (ids are unique in the database). -/
def updateBalance (accounts : List Account) (id : Nat) (delta : Int) :
    List Account :=
  accounts.map (bumpAccount id delta)

/-- JS `data.description || 'Transfer'`: `undefined` and the empty string
both fall back to the default. -/
def defaultDesc (d : Option String) (dflt : String) : String :=
  match d with
  | some str => if str = "" then dflt else str
  | none => dflt

/-- `createTransfer` from `src/services/transfer.service.ts`: guard chain,
then one atomic unit decrementing the source, incrementing the destination,
inserting the DEBIT and CREDIT transactions and the COMPLETED transfer row. -/
def createTransfer (s : BankState) (fromAccountId toAccountId : Nat)
    (amount : Int) (description : Option String) :
    BankState × Except AppError TransferRec :=
  if amount ≤ 0 then
    (s, .error ⟨422, "VALIDATION_ERROR", "Amount must be greater than 0", none⟩)
  else if fromAccountId = toAccountId then
    (s, .error ⟨422, "VALIDATION_ERROR", "Source and destination must be different accounts", none⟩)
  else
    match findAccount s fromAccountId, findAccount s toAccountId with
    | none, _ => (s, .error ⟨404, "NOT_FOUND", "Source account not found", none⟩)
    | some _, none => (s, .error ⟨404, "NOT_FOUND", "Destination account not found", none⟩)
    | some fromAccount, some toAccount =>
      if fromAccount.status = .FROZEN then
        (s, .error ⟨422, "ACCOUNT_FROZEN", "Cannot transfer from a frozen account", none⟩)
      else if fromAccount.status = .CLOSED then
        (s, .error ⟨422, "ACCOUNT_CLOSED", "Cannot transfer from a closed account", none⟩)
      else if toAccount.status = .FROZEN then
        (s, .error ⟨422, "ACCOUNT_FROZEN", "Cannot transfer to a frozen account", none⟩)
      else if toAccount.status = .CLOSED then
        (s, .error ⟨422, "ACCOUNT_CLOSED", "Cannot transfer to a closed account", none⟩)
      else if fromAccount.currency ≠ toAccount.currency then
        (s, .error ⟨422, "VALIDATION_ERROR", "Both accounts must have the same currency", none⟩)
      else if fromAccount.balance < amount then
        (s, .error ⟨422, "INSUFFICIENT_FUNDS", "Insufficient balance in source account",
          some { requested := some amount }⟩)
      else
        let accounts1 := updateBalance s.accounts fromAccountId (-amount)
        let accounts2 := updateBalance accounts1 toAccountId amount
        let desc := defaultDesc description "Transfer"
        let debitTxn : TransactionRec :=
          ⟨fromAccountId, .DEBIT, amount, fromAccount.balance - amount, desc, .COMPLETED⟩
        let creditTxn : TransactionRec :=
          ⟨toAccountId, .CREDIT, amount, toAccount.balance + amount, desc, .COMPLETED⟩
        let transfer : TransferRec :=
          ⟨fromAccountId, toAccountId, amount, description, .COMPLETED⟩
        ({ s with
            accounts := accounts2,
            transactions := s.transactions ++ [debitTxn, creditTxn],
            transfers := s.transfers ++ [transfer] },
         .ok transfer)

/-- `createPayment` from `src/services/payment.service.ts` (delayed-settlement
generation): guard chain, then one atomic unit decrementing the account and
inserting a PENDING DEBIT transaction and a PENDING payment row.  The 5-second
fire-and-forget settlement timer that later flips both rows to COMPLETED runs
outside this unit and is not part of the verified atomic step. -/
def createPayment (s : BankState) (accountId : Nat) (amount : Int)
    (beneficiaryName beneficiaryBank beneficiaryAccount : String)
    (description : Option String) :
    BankState × Except AppError PaymentRec :=
  if amount ≤ 0 then
    (s, .error ⟨422, "VALIDATION_ERROR", "Amount must be greater than 0", none⟩)
  else
    match findAccount s accountId with
    | none => (s, .error ⟨404, "NOT_FOUND", "Account not found", none⟩)
    | some account =>
      if account.status = .FROZEN then
        (s, .error ⟨422, "ACCOUNT_FROZEN", "Cannot make payment from a frozen account", none⟩)
      else if account.status = .CLOSED then
        (s, .error ⟨422, "ACCOUNT_CLOSED", "Cannot make payment from a closed account", none⟩)
      else if account.balance < amount then
        (s, .error ⟨422, "INSUFFICIENT_FUNDS", "Insufficient balance for payment",
          some { available := some account.balance, requested := some amount }⟩)
      else
        let debitTxn : TransactionRec :=
          ⟨accountId, .DEBIT, amount, account.balance - amount,
            defaultDesc description ("Payment to " ++ beneficiaryName), .PENDING⟩
        let payment : PaymentRec :=
          ⟨accountId, amount, beneficiaryName, beneficiaryBank, beneficiaryAccount,
            description, .PENDING⟩
        ({ s with
            accounts := updateBalance s.accounts accountId (-amount),
            transactions := s.transactions ++ [debitTxn],
            payments := s.payments ++ [payment] },
         .ok payment)

/-- `createDeposit` from the deposit service: guard chain, then one atomic
unit incrementing the balance and inserting a COMPLETED CREDIT transaction
and a COMPLETED deposit row. -/
def createDeposit (s : BankState) (accountId : Nat) (amount : Int)
    (source : String) :
    BankState × Except AppError DepositRec :=
  if amount ≤ 0 then
    (s, .error ⟨422, "VALIDATION_ERROR", "Amount must be greater than 0", none⟩)
  else
    match findAccount s accountId with
    | none => (s, .error ⟨404, "NOT_FOUND", "Account not found", none⟩)
    | some account =>
      if account.status ≠ .ACTIVE then
        if account.status = .FROZEN then
          (s, .error ⟨422, "ACCOUNT_FROZEN", "Cannot deposit to a frozen account", none⟩)
        else
          (s, .error ⟨422, "ACCOUNT_CLOSED", "Cannot deposit to a closed account", none⟩)
      else
        let creditTxn : TransactionRec :=
          ⟨accountId, .CREDIT, amount, account.balance + amount,
            source ++ " deposit", .COMPLETED⟩
        let deposit : DepositRec := ⟨accountId, amount, source, .COMPLETED⟩
        ({ s with
            accounts := updateBalance s.accounts accountId amount,
            transactions := s.transactions ++ [creditTxn],
            deposits := s.deposits ++ [deposit] },
         .ok deposit)

/-- The `Date` the expiry checks build: `new Date(2000 + year, month, 0)`,
i.e. midnight starting the *last day* of calendar month `expMonth` of year
`2000 + expYear`. -/
def cardExpiryEnd (c : Card) : DateTime :=
  ⟨2000 + c.expYear, c.expMonth, daysInMonth (2000 + c.expYear) c.expMonth, 0⟩

/-- `isCardExpired` from `src/services/card.service.ts` (the withdrawal
service inlines the identical computation): `expiryEnd < new Date()`. -/
def isCardExpired (c : Card) (now : DateTime) : Bool :=
  (cardExpiryEnd c).key < now.key

/-- First instant after the expiry month ends (start of the following
month); "now is past the last instant of the month" means `now` is at or
after this point. -/
def monthAfterExpiry (c : Card) : DateTime :=
  if c.expMonth = 12 then ⟨2000 + c.expYear + 1, 1, 1, 0⟩
  else ⟨2000 + c.expYear, c.expMonth + 1, 1, 0⟩

/-- The spec's wording of the expiry test, for comparison with
`isCardExpired`: the card counts as expired exactly when the current time is
past the last instant of the expiry month. -/
def specCardExpired (c : Card) (now : DateTime) : Bool :=
  (monthAfterExpiry c).key ≤ now.key

/-- Effect of a status update on one card row. -/
def stampCard (id : Nat) (st : CardStatus) (c : Card) : Card :=
  if c.id = id then { c with status := st } else c

/-- `card.update({data: {status}})` applied to the row with the given id. -/
def setCardStatus (cards : List Card) (id : Nat) (st : CardStatus) :
    List Card :=
  cards.map (stampCard id st)

/-- `prisma.card.findUnique({where: {id}})`. -/
def findCard (s : BankState) (id : Nat) : Option Card :=
  s.cards.find? (fun c => c.id = id)

/-- `updateCard` from `src/services/card.service.ts`: side-effecting expiry
check (flip to EXPIRED and fail), then the status state machine
(ACTIVE ↔ BLOCKED only) and the positive daily-limit rule. -/
def updateCard (s : BankState) (id : Nat) (newStatus : Option CardStatus)
    (newDailyLimit : Option Int) (now : DateTime) :
    BankState × Except AppError Card :=
  match findCard s id with
  | none => (s, .error ⟨404, "NOT_FOUND", "Card not found", none⟩)
  | some card =>
    if isCardExpired card now ∧ card.status ≠ .EXPIRED ∧ card.status ≠ .CANCELLED then
      ({ s with cards := setCardStatus s.cards id .EXPIRED },
       .error ⟨422, "CARD_NOT_ACTIVE", "Card has expired", none⟩)
    else
      match newStatus with
      | some st =>
        if card.status = .CANCELLED then
          (s, .error ⟨422, "CARD_NOT_ACTIVE", "Cannot update a cancelled card", none⟩)
        else if card.status = .EXPIRED then
          (s, .error ⟨422, "CARD_NOT_ACTIVE", "Cannot update an expired card", none⟩)
        else if card.status = .ACTIVE ∧ st ≠ .BLOCKED then
          (s, .error ⟨422, "VALIDATION_ERROR", "Active cards can only be blocked", none⟩)
        else if card.status = .BLOCKED ∧ st ≠ .ACTIVE then
          (s, .error ⟨422, "VALIDATION_ERROR", "Blocked cards can only be activated", none⟩)
        else
          updateCardApply s id card (some st) newDailyLimit
      | none =>
        updateCardApply s id card none newDailyLimit
where
  /-- The trailing daily-limit validation and final `card.update` write. -/
  updateCardApply (s : BankState) (id : Nat) (card : Card)
      (st : Option CardStatus) (lim : Option Int) :
      BankState × Except AppError Card :=
    match lim with
    | some l =>
      if l ≤ 0 then
        (s, .error ⟨422, "VALIDATION_ERROR", "Daily limit must be a positive integer", none⟩)
      else
        let card' := { card with status := st.getD card.status, dailyLimit := l }
        ({ s with cards := s.cards.map (fun c => if c.id = id then card' else c) }, .ok card')
    | none =>
      let card' := { card with status := st.getD card.status }
      ({ s with cards := s.cards.map (fun c => if c.id = id then card' else c) }, .ok card')

/-- UTC midnight of the current day: `todayStart.setUTCHours(0, 0, 0, 0)`. -/
def todayStart (now : DateTime) : DateTime :=
  ⟨now.year, now.month, now.day, 0⟩

/-- The `withdrawal.aggregate` sum inside `createWithdrawal`'s transaction:
today's (UTC midnight onward) COMPLETED ATM withdrawals on the account
(`_sum.amount || 0` is `0` when no row matches). -/
def todayAtmSum (withdrawals : List WithdrawalRec) (accountId : Nat)
    (dayStart : DateTime) : Int :=
  (withdrawals.filter (fun w =>
    w.accountId = accountId ∧ w.channel = "ATM" ∧ w.status = .COMPLETED ∧
      dayStart.key ≤ w.createdAt.key)).foldl (fun acc w => acc + w.amount) 0

/-- `createWithdrawal` from the withdrawal service: guard chain, the
ATM-channel card gate (with its side-effecting expiry flips performed outside
the atomic unit), then one atomic unit running the daily-limit aggregate,
decrementing the balance and inserting the DEBIT transaction and the
COMPLETED withdrawal row. -/
def createWithdrawal (s : BankState) (accountId : Nat) (amount : Int)
    (channel : String) (now : DateTime) :
    BankState × Except AppError WithdrawalRec :=
  if amount ≤ 0 then
    (s, .error ⟨422, "VALIDATION_ERROR", "Amount must be greater than 0", none⟩)
  else
    match findAccount s accountId with
    | none => (s, .error ⟨404, "NOT_FOUND", "Account not found", none⟩)
    | some account =>
      if account.status ≠ .ACTIVE then
        if account.status = .FROZEN then
          (s, .error ⟨422, "ACCOUNT_FROZEN", "Cannot withdraw from a frozen account", none⟩)
        else
          (s, .error ⟨422, "ACCOUNT_CLOSED", "Cannot withdraw from a closed account", none⟩)
      else if account.balance < amount then
        (s, .error ⟨422, "INSUFFICIENT_FUNDS", "Insufficient balance for withdrawal",
          some { requested := some amount }⟩)
      else if channel = "ATM" then
        let accountCards := s.cards.filter (fun c => c.accountId = accountId)
        match accountCards.find? (fun c => c.type = .DEBIT ∧ c.status = .ACTIVE) with
        | none =>
          match accountCards.find? (fun c =>
              c.type = .DEBIT ∧ (c.status = .ACTIVE ∨ c.status = .BLOCKED)) with
          | some expiredDebit =>
            if isCardExpired expiredDebit now then
              ({ s with cards := setCardStatus s.cards expiredDebit.id .EXPIRED },
               .error ⟨422, "CARD_NOT_ACTIVE", "Card has expired", none⟩)
            else
              (s, .error ⟨422, "CARD_NOT_ACTIVE", "No active debit card found for ATM withdrawal", none⟩)
          | none =>
            (s, .error ⟨422, "CARD_NOT_ACTIVE", "No active debit card found for ATM withdrawal", none⟩)
        | some debitCard =>
          if isCardExpired debitCard now then
            ({ s with cards := setCardStatus s.cards debitCard.id .EXPIRED },
             .error ⟨422, "CARD_NOT_ACTIVE", "Card has expired", none⟩)
          else
            let total := todayAtmSum s.withdrawals accountId (todayStart now) + amount
            if debitCard.dailyLimit < total then
              (s, .error ⟨422, "DAILY_LIMIT_EXCEEDED", "Card daily limit would be exceeded", none⟩)
            else
              withdrawApply s accountId account amount channel now
      else
        withdrawApply s accountId account amount channel now
where
  /-- The success tail of the atomic unit: decrement, DEBIT transaction,
  COMPLETED withdrawal row. -/
  withdrawApply (s : BankState) (accountId : Nat) (account : Account)
      (amount : Int) (channel : String) (now : DateTime) :
      BankState × Except AppError WithdrawalRec :=
    let debitTxn : TransactionRec :=
      ⟨accountId, .DEBIT, amount, account.balance - amount,
        channel ++ " withdrawal", .COMPLETED⟩
    let w : WithdrawalRec := ⟨accountId, amount, channel, .COMPLETED, now⟩
    ({ s with
        accounts := updateBalance s.accounts accountId (-amount),
        transactions := s.transactions ++ [debitTxn],
        withdrawals := s.withdrawals ++ [w] },
     .ok w)

/-- Luhn doubling step: double the digit and subtract 9 when the result
exceeds 9. -/
def luhnDouble (d : Nat) : Nat :=
  let x := d * 2
  if x > 9 then x - 9 else x

/-- Sum of a digit sequence taken rightmost-first (the list argument is the
reversed number): the flag says whether the current position is doubled, and
it alternates at each step. -/
def luhnSumFromRight : Bool → List Nat → Nat
  | _, [] => 0
  | doubled, d :: rest =>
    (if doubled then luhnDouble d else d) + luhnSumFromRight (!doubled) rest

/-- The check-digit computation of `generateLuhnCardNumber`
(`src/services/card.service.ts`): the loop reads `digits[14 - i]` for
`i = 0..14` and doubles when `i % 2 == 0`, i.e. it sums the reversed first
15 digits doubling the rightmost one and every second after it; the check
digit is `(10 - sum % 10) % 10`. -/
def luhnCheckDigit (first15 : List Nat) : Nat :=
  (10 - (luhnSumFromRight true first15.reverse) % 10) % 10

/-- `generateLuhnCardNumber`: a leading `4`, the 14 random digits drawn by
`Math.floor(Math.random() * 10)` (passed in explicitly), and the Luhn check
digit of those first 15 digits. -/
def generateLuhnCardNumber (rand : List Nat) : List Nat :=
  let digits := 4 :: rand
  digits ++ [luhnCheckDigit digits]

/-- The standard Luhn checksum validation: starting from the rightmost digit
(not doubled), double every second digit, subtract 9 from doubled values
exceeding 9, and require the total to be divisible by 10. -/
def luhnValid (digits : List Nat) : Bool :=
  luhnSumFromRight false digits.reverse % 10 == 0

/-- The claims of a signed token (`src/lib/auth.ts`).  Signature validity and
`exp` checking are performed by the token library (`hono/jwt`); the verify
functions below model the type-claim check the source applies to an
already-signature-valid payload. -/
structure JwtPayload where
  sub : String
  type : Option String := none
  role : Option String := none
  botId : Option String := none
  iat : Nat
  exp : Nat
deriving DecidableEq, Repr

/-- `signAccessToken(customerId)`: a customer token. -/
def signAccessToken (customerId : String) (now : Nat) : JwtPayload :=
  { sub := customerId, type := some "customer", iat := now, exp := now + 900 }

/-- `signEmployeeAccessToken(employeeId, role)`: an employee token. -/
def signEmployeeAccessToken (employeeId role : String) (now : Nat) : JwtPayload :=
  { sub := employeeId, type := some "employee", role := some role,
    iat := now, exp := now + 900 }

/-- `signBotSessionToken(customerId, employeeId)`: a bot_session token. -/
def signBotSessionToken (customerId employeeId : String) (now : Nat) : JwtPayload :=
  { sub := customerId, type := some "bot_session", botId := some employeeId,
    iat := now, exp := now + 900 }

/-- `verifyAccessToken`: the source guard is
`if (payload.type && payload.type !== 'customer') throw` — a JS truthiness
test, so an absent type claim and an empty-string type claim both pass. -/
def verifyAccessToken (p : JwtPayload) : Except String JwtPayload :=
  match p.type with
  | some t => if t ≠ "" ∧ t ≠ "customer" then .error "Invalid token type" else .ok p
  | none => .ok p

/-- `verifyEmployeeAccessToken`: `if (payload.type !== 'employee') throw`. -/
def verifyEmployeeAccessToken (p : JwtPayload) : Except String JwtPayload :=
  if p.type ≠ some "employee" then .error "Invalid token type" else .ok p

/-- `verifyBotSessionToken`: `if (payload.type !== 'bot_session') throw`. -/
def verifyBotSessionToken (p : JwtPayload) : Except String JwtPayload :=
  if p.type ≠ some "bot_session" then .error "Invalid token type" else .ok p

/-- An `IdempotencyRecord` row: the stored route, body hash, response JSON
and HTTP status for one client key. -/
structure IdempotencyRecord where
  key : String
  route : String
  body : String
  response : String
  status : Nat
deriving DecidableEq, Repr

/-- The observable outcome of `idempotencyMiddleware` for one request. -/
inductive IdemOutcome where
  /-- No Idempotency-Key header: the handler runs with nothing stashed. -/
  | next
  /-- Key present, no existing record: the handler runs and the key, route
  and body hash are stashed for `saveIdempotencyRecord`. -/
  | nextStashed (key route bodyHash : String)
  /-- Key present, existing record with a different route or hash: the
  handler is never invoked. -/
  | conflict (status : Nat) (code message : String)
  /-- Key present, existing record matching route and hash: the stored
  response body and status are replayed; the handler is never invoked. -/
  | replay (response : String) (status : Nat)
  /-- `JSON.parse` threw on a non-empty body before the lookup. -/
  | parseError
deriving DecidableEq, Repr

/-- `idempotencyMiddleware` from `src/lib/idempotency.ts`.  `hash` is the
opaque SHA-256 hex digest, `jsonParses` the opaque JSON-parse success
predicate; both are parameters of the embedding. -/
def idempotencyMiddleware (store : List IdempotencyRecord)
    (hash : String → String) (jsonParses : String → Bool)
    (key : Option String) (method path bodyText : String) : IdemOutcome :=
  match key with
  | none => .next
  | some k =>
    let route := method ++ " " ++ path
    let bodyHash := hash bodyText
    if bodyText ≠ "" ∧ ¬jsonParses bodyText then .parseError
    else
      match store.find? (fun r => r.key = k) with
      | some existing =>
        if existing.route ≠ route ∨ existing.body ≠ bodyHash then
          .conflict 409 "CONFLICT" "Idempotency key already used with a different request"
        else
          .replay existing.response existing.status
      | none => .nextStashed k route bodyHash

/-- `saveIdempotencyRecord`: invoked by a handler after success; a no-op
when the middleware stashed no key, otherwise inserts the record. -/
def saveIdempotencyRecord (store : List IdempotencyRecord)
    (stash : Option (String × String × String))
    (responseBody : String) (status : Nat) : List IdempotencyRecord :=
  match stash with
  | none => store
  | some (k, route, bodyHash) => store ++ [⟨k, route, bodyHash, responseBody, status⟩]

/-- A KBA catalog question (id and confidence weight; the prompt text plays
no role in any verified property and is omitted). -/
structure Question where
  id : String
  weight : ℚ
deriving DecidableEq, Repr

/-- The `ALL_QUESTIONS` catalog of `src/services/verification.service.ts`,
weights as exact rationals. -/
def ALL_QUESTIONS : List Question :=
  [⟨"last_txn_amount", 3/10⟩,
   ⟨"account_number", 1/4⟩,
   ⟨"card_last_four", 1/4⟩,
   ⟨"date_of_birth", 3/20⟩,
   ⟨"phone_number", 3/20⟩,
   ⟨"email", 3/20⟩,
   ⟨"address", 3/20⟩,
   ⟨"full_name", 1/10⟩]

/-- Verification session status enum. -/
inductive SessionStatus where
  | IN_PROGRESS | VERIFIED | FAILED | EXPIRED
deriving DecidableEq, Repr

/-- A `VerificationSession` row.  `expiresAt` is epoch milliseconds (the
source compares bare `Date` values here, never calendar components). -/
structure VerificationSession where
  status : SessionStatus
  confidence : ℚ
  correctAnswers : Nat
  questionsAsked : List String
  expiresAt : Nat
deriving DecidableEq, Repr

/-- The customer data `startVerification`/`answerQuestion` load: identity
fields plus each account with its cards (the transaction slice loaded for
answer matching feeds only `checkAnswer`, which the theorems take as an
oracle parameter). -/
structure VerifAccount where
  accountNumber : String
  cards : List Card
  transactions : List TransactionRec
deriving DecidableEq, Repr

/-- The customer row with included relations. -/
structure VerifCustomer where
  id : String
  firstName : String
  lastName : String
  phone : String
  accounts : List VerifAccount
deriving DecidableEq, Repr

/-- `customer.accounts.some((a) => a.cards.length > 0)`. -/
def hasCards (c : VerifCustomer) : Bool :=
  c.accounts.any (fun a => !a.cards.isEmpty)

/-- The applicable-question filter of `startVerification`: drop
`phone_number` always and `card_last_four` when the customer holds no cards.
No other condition is applied — in particular the filter never consults the
customer's transactions. -/
def startAvailableQuestions (hc : Bool) : List Question :=
  ALL_QUESTIONS.filter (fun q =>
    !(q.id == "phone_number") && !(q.id == "card_last_four" && !hc))

/-- The applicable-question filter of `answerQuestion`: the same two
exclusions plus already-asked ids. -/
def nextAvailableQuestions (hc : Bool) (asked : List String) : List Question :=
  ALL_QUESTIONS.filter (fun q =>
    !(q.id == "phone_number") && !(q.id == "card_last_four" && !hc) &&
      !(asked.contains q.id))

/-- `startVerification` (after the phone lookup found `customer`): build the
pool, order it by the weight-tier shuffle (`shuffle` is the random
within-tier permutation, an explicit parameter), ask its head, and create
the session with confidence 0 expiring 10 minutes from now. -/
def startVerification (customer : VerifCustomer)
    (shuffle : List Question → List Question) (nowEpoch : Nat) :
    Except AppError (VerificationSession × Question) :=
  let available := shuffle (startAvailableQuestions (hasCards customer))
  match available with
  | [] => .error ⟨500, "INTERNAL_ERROR", "An unexpected error occurred", none⟩
  | q :: _ =>
    .ok ({ status := .IN_PROGRESS, confidence := 0, correctAnswers := 0,
           questionsAsked := [q.id], expiresAt := nowEpoch + 10 * 60 * 1000 }, q)

/-- The response `answerQuestion` produces on the three non-error paths. -/
inductive AnswerOutcome where
  /-- Confidence reached 0.75: VERIFIED, with the issued access token and
  the minimal customer summary (id, first name, last name). -/
  | verified (correct : Bool) (confidence : ℚ) (accessToken : JwtPayload)
      (customerId firstName lastName : String)
  /-- Pool exhausted below 0.75: FAILED with a terminal message. -/
  | failed (correct : Bool) (confidence : ℚ)
  /-- Otherwise: next question appended and returned. -/
  | nextQuestion (correct : Bool) (confidence : ℚ) (next : Question)
deriving DecidableEq, Repr

/-- `answerQuestion` from `src/services/verification.service.ts`.  `checker`
is the pure `checkAnswer(questionId, answer, customer)` scorer for this
customer, `shuffle` the random within-tier permutation, `tokenNow` the clock
read by token signing.  Returns the updated session row and the outcome. -/
def answerQuestion (session : VerificationSession) (customer : VerifCustomer)
    (checker : String → String → Bool)
    (shuffle : List Question → List Question)
    (questionId answer : String) (nowEpoch tokenNow : Nat) :
    VerificationSession × Except AppError AnswerOutcome :=
  if session.status ≠ .IN_PROGRESS then
    (session, .error ⟨404, "NOT_FOUND", "Verification session not found", none⟩)
  else if session.expiresAt < nowEpoch then
    ({ session with status := .EXPIRED },
     .error ⟨422, "SESSION_EXPIRED", "Verification session has expired", none⟩)
  else if session.questionsAsked.getLast? ≠ some questionId then
    (session, .error ⟨422, "VALIDATION_ERROR", "Invalid question ID for current session state", none⟩)
  else
    match ALL_QUESTIONS.find? (fun q => q.id = questionId) with
    | none =>
      (session, .error ⟨500, "INTERNAL_ERROR", "An unexpected error occurred", none⟩)
    | some questionDef =>
      let correct := checker questionId answer
      let rawConfidence :=
        if correct then session.confidence + questionDef.weight
        else session.confidence - questionDef.weight / 2
      let newConfidence := if rawConfidence < 0 then 0 else rawConfidence
      let newCorrectAnswers :=
        if correct then session.correctAnswers + 1 else session.correctAnswers
      if 3/4 ≤ newConfidence then
        ({ session with
             status := .VERIFIED,
             confidence := newConfidence,
             correctAnswers := newCorrectAnswers },
         .ok (.verified correct newConfidence (signAccessToken customer.id tokenNow)
           customer.id customer.firstName customer.lastName))
      else
        let available := nextAvailableQuestions (hasCards customer) session.questionsAsked
        if available.isEmpty then
          ({ session with
               status := .FAILED,
               confidence := newConfidence,
               correctAnswers := newCorrectAnswers },
           .ok (.failed correct newConfidence))
        else
          match shuffle available with
          | [] =>
            (session, .error ⟨500, "INTERNAL_ERROR", "An unexpected error occurred", none⟩)
          | nextQ :: _ =>
            ({ session with
                 confidence := newConfidence,
                 correctAnswers := newCorrectAnswers,
                 questionsAsked := session.questionsAsked ++ [nextQ.id] },
             .ok (.nextQuestion correct newConfidence nextQ))

/-! ## Helper lemmas -/

/-- A balance bump never changes the row id. -/
theorem bumpAccount_id (i : Nat) (δ : Int) (a : Account) :
    (bumpAccount i δ a).id = a.id := by
  unfold bumpAccount; split <;> rfl

/-- Row lookup after a balance update: the found row is the bumped found
row (lookups key on ids, which balance updates preserve). -/
theorem find?_updateBalance (l : List Account) (i j : Nat) (δ : Int) :
    (updateBalance l i δ).find? (fun a => a.id = j) =
      (l.find? (fun a => a.id = j)).map (bumpAccount i δ) := by
  induction l with
  | nil => rfl
  | cons a l ih =>
    unfold updateBalance at ih ⊢
    by_cases hj : a.id = j
    · rw [List.map_cons, List.find?_cons_of_pos, List.find?_cons_of_pos] <;>
        simp [bumpAccount_id, hj]
    · rw [List.map_cons, List.find?_cons_of_neg, List.find?_cons_of_neg]
      · exact ih
      · simp [hj]
      · simp [bumpAccount_id, hj]

/-- A row found by id carries that id. -/
theorem findAccount_id {s : BankState} {i : Nat} {a : Account}
    (h : findAccount s i = some a) : a.id = i := by
  have := List.find?_some h
  simpa using this

/-! ## C7: Luhn validity of generated card numbers -/

/-- Appending the check digit makes the rightmost-first sum start undoubled
at the check digit and continue doubled into the first 15 digits. -/
theorem luhnSumFromRight_cons (b : Bool) (d : Nat) (rest : List Nat) :
    luhnSumFromRight b (d :: rest) =
      (if b then luhnDouble d else d) + luhnSumFromRight (!b) rest := rfl

/-- C7: every number produced by `generateLuhnCardNumber` from 14 random
digits is 16 digits long, starts with 4, ends with the Luhn check digit of
its first 15 digits, and validates under the standard Luhn checksum. -/
theorem generateLuhnCardNumber_valid (rand : List Nat)
    (hlen : rand.length = 14) (hdig : ∀ d ∈ rand, d ≤ 9) :
    (generateLuhnCardNumber rand).length = 16 ∧
    (generateLuhnCardNumber rand).head? = some 4 ∧
    (∀ d ∈ generateLuhnCardNumber rand, d ≤ 9) ∧
    (generateLuhnCardNumber rand).getLast? = some (luhnCheckDigit (4 :: rand)) ∧
    luhnValid (generateLuhnCardNumber rand) = true := by
  unfold generateLuhnCardNumber
  refine ⟨by simp [hlen], by simp, ?_, List.getLast?_concat _, ?_⟩
  · intro d hd
    rcases List.mem_append.1 hd with h | h
    · rcases List.mem_cons.1 h with rfl | h
      · omega
      · exact hdig d h
    · rcases List.mem_singleton.1 h with rfl
      unfold luhnCheckDigit
      omega
  · unfold luhnValid luhnCheckDigit
    rw [List.reverse_append]
    simp only [List.reverse_cons, List.reverse_nil, List.nil_append,
      List.singleton_append, luhnSumFromRight_cons, Bool.not_false,
      Bool.false_eq_true, if_false, beq_iff_eq]
    omega

/-- Witness for C7 at a concrete draw of 14 random digits. -/
theorem generateLuhnCardNumber_valid_witness :
    luhnValid (generateLuhnCardNumber [0, 1, 2, 3, 4, 5, 6, 7, 8, 9, 0, 1, 2, 3]) = true ∧
    (generateLuhnCardNumber [0, 1, 2, 3, 4, 5, 6, 7, 8, 9, 0, 1, 2, 3]).length = 16 :=
  ⟨(generateLuhnCardNumber_valid [0, 1, 2, 3, 4, 5, 6, 7, 8, 9, 0, 1, 2, 3]
      (by decide) (by decide)).2.2.2.2,
   (generateLuhnCardNumber_valid [0, 1, 2, 3, 4, 5, 6, 7, 8, 9, 0, 1, 2, 3]
      (by decide) (by decide)).1⟩

/-! ## C1: money conservation of createTransfer -/

/-- C1: every successful `createTransfer` of amount A from X to Y decrements
X by A, increments Y by A, appends exactly one COMPLETED DEBIT transaction on
X (balanceAfter = post-decrement balance) and exactly one COMPLETED CREDIT
transaction on Y (balanceAfter = post-increment balance) — both carrying the
defaulted description — and appends the transfer row as COMPLETED.  The
all-or-nothing unit is the model's atomic step: an error leaves the returned
state untouched by construction of the `$transaction` embedding. -/
theorem createTransfer_money_conservation
    (s s' : BankState) (X Y : Nat) (A : Int) (d : Option String)
    (t : TransferRec)
    (h : createTransfer s X Y A d = (s', Except.ok t)) :
    ∃ fx fy, findAccount s X = some fx ∧ findAccount s Y = some fy ∧
      findAccount s' X = some { fx with balance := fx.balance - A } ∧
      findAccount s' Y = some { fy with balance := fy.balance + A } ∧
      s'.transactions = s.transactions ++
        [⟨X, .DEBIT, A, fx.balance - A, defaultDesc d "Transfer", .COMPLETED⟩,
         ⟨Y, .CREDIT, A, fy.balance + A, defaultDesc d "Transfer", .COMPLETED⟩] ∧
      t = ⟨X, Y, A, d, .COMPLETED⟩ ∧
      s'.transfers = s.transfers ++ [t] := by
  unfold createTransfer at h
  split at h
  · simp at h
  · split at h
    · simp at h
    · rename_i hA hXY
      split at h
      · simp at h
      · simp at h
      · rename_i o1 o2 fromAccount toAccount hfrom hto
        split at h
        · simp at h
        · split at h
          · simp at h
          · split at h
            · simp at h
            · split at h
              · simp at h
              · split at h
                · simp at h
                · split at h
                  · simp at h
                  · rename_i hfF hfC htF htC hcur hbal
                    rw [Prod.mk.injEq] at h
                    obtain ⟨hs', ht⟩ := h
                    rw [Except.ok.injEq] at ht
                    have hXid : fromAccount.id = X := by
                      have := List.find?_some hfrom
                      simpa using this
                    have hYid : toAccount.id = Y := by
                      have := List.find?_some hto
                      simpa using this
                    have hYX : ¬Y = X := fun hh => hXY hh.symm
                    refine ⟨fromAccount, toAccount, hfrom, hto, ?_, ?_, ?_, ht.symm, ?_⟩
                    · rw [← hs']
                      show (updateBalance (updateBalance s.accounts X (-A)) Y A).find?
                          (fun a => a.id = X) = _
                      rw [find?_updateBalance, find?_updateBalance]
                      unfold findAccount at hfrom
                      rw [hfrom]
                      simp [bumpAccount, hXid, hXY, sub_eq_add_neg]
                    · rw [← hs']
                      show (updateBalance (updateBalance s.accounts X (-A)) Y A).find?
                          (fun a => a.id = Y) = _
                      rw [find?_updateBalance, find?_updateBalance]
                      unfold findAccount at hto
                      rw [hto]
                      simp [bumpAccount, hYid, hYX]
                    · rw [← hs']
                    · rw [← hs', ← ht]

/-- A two-account sample state for concrete runs. -/
def sampleState : BankState :=
  { accounts :=
      [⟨1, 10, "0000000001", "USD", 100000, .ACTIVE⟩,
       ⟨2, 11, "0000000002", "USD", 50000, .ACTIVE⟩],
    transactions := [], cards := [], withdrawals := [],
    transfers := [], payments := [], deposits := [] }

/-- The state produced by a sample transfer of 30000 from account 1 to 2. -/
def sampleTransferRun : BankState × Except AppError TransferRec :=
  createTransfer sampleState 1 2 30000 none

/-- Witness for C1: the conservation theorem applied to a concrete transfer
of 30000 between the two sample accounts. -/
theorem createTransfer_money_conservation_witness :
    ∃ fx fy, findAccount sampleState 1 = some fx ∧
      findAccount sampleState 2 = some fy ∧
      findAccount sampleTransferRun.1 1 = some { fx with balance := fx.balance - 30000 } ∧
      findAccount sampleTransferRun.1 2 = some { fy with balance := fy.balance + 30000 } ∧
      sampleTransferRun.1.transactions = sampleState.transactions ++
        [⟨1, .DEBIT, 30000, fx.balance - 30000, defaultDesc none "Transfer", .COMPLETED⟩,
         ⟨2, .CREDIT, 30000, fy.balance + 30000, defaultDesc none "Transfer", .COMPLETED⟩] ∧
      (⟨1, 2, 30000, none, .COMPLETED⟩ : TransferRec) = ⟨1, 2, 30000, none, .COMPLETED⟩ ∧
      sampleTransferRun.1.transfers = sampleState.transfers ++
        [(⟨1, 2, 30000, none, .COMPLETED⟩ : TransferRec)] :=
  createTransfer_money_conservation sampleState sampleTransferRun.1 1 2 30000 none
    ⟨1, 2, 30000, none, .COMPLETED⟩ rfl

/-! ## C2: overdraft rejection -/

/-- A sample state whose first account holds 250000. -/
def lowBalanceState : BankState :=
  { accounts :=
      [⟨1, 10, "0000000001", "USD", 250000, .ACTIVE⟩,
       ⟨2, 11, "0000000002", "USD", 0, .ACTIVE⟩],
    transactions := [], cards := [], withdrawals := [],
    transfers := [], payments := [], deposits := [] }

/-- C2 counterexample: a transfer of 500000 against a balance of 250000
fails INSUFFICIENT_FUNDS, but its error detail carries only the requested
amount — not the available-and-requested pair the claim asserts for
transfers. -/
theorem createTransfer_insufficient_detail_counterexample :
    (createTransfer lowBalanceState 1 2 500000 none).2 =
      Except.error ⟨422, "INSUFFICIENT_FUNDS", "Insufficient balance in source account",
        some { requested := some 500000 }⟩ ∧
    some ({ requested := some 500000 } : ErrDetails) ≠
      some ({ available := some 250000, requested := some 500000 } : ErrDetails) := by
  constructor
  · rfl
  · decide

/-- C2 (amended): a transfer, payment or withdrawal requesting more than the
available balance — the remaining preconditions holding — fails with
INSUFFICIENT_FUNDS and returns the state unchanged (no balance mutation, no
ledger row); the error detail carries the requested amount for a withdrawal
and for a transfer, and the available-and-requested pair for a payment. -/
theorem overdraft_rejected :
    (∀ (s : BankState) (X Y : Nat) (A : Int) (d : Option String)
        (fx fy : Account),
      0 < A → ¬X = Y → findAccount s X = some fx → findAccount s Y = some fy →
      fx.status = .ACTIVE → fy.status = .ACTIVE →
      fx.currency = fy.currency → fx.balance < A →
      createTransfer s X Y A d =
        (s, .error ⟨422, "INSUFFICIENT_FUNDS", "Insufficient balance in source account",
          some { requested := some A }⟩)) ∧
    (∀ (s : BankState) (acc : Nat) (A : Int) (bn bb ba : String)
        (d : Option String) (a : Account),
      0 < A → findAccount s acc = some a → a.status = .ACTIVE → a.balance < A →
      createPayment s acc A bn bb ba d =
        (s, .error ⟨422, "INSUFFICIENT_FUNDS", "Insufficient balance for payment",
          some { available := some a.balance, requested := some A }⟩)) ∧
    (∀ (s : BankState) (acc : Nat) (A : Int) (ch : String) (now : DateTime)
        (a : Account),
      0 < A → findAccount s acc = some a → a.status = .ACTIVE → a.balance < A →
      createWithdrawal s acc A ch now =
        (s, .error ⟨422, "INSUFFICIENT_FUNDS", "Insufficient balance for withdrawal",
          some { requested := some A }⟩)) := by
  refine ⟨?_, ?_, ?_⟩
  · intro s X Y A d fx fy hA hXY hfrom hto hfxs hfys hcur hbal
    have hA' : ¬A ≤ 0 := by omega
    simp only [createTransfer, hA', hXY, hfrom, hto, hfxs, hfys, hcur, hbal,
      if_false, if_true, ite_false, ite_true]
    simp
  · intro s acc A bn bb ba d a hA hfind has hbal
    have hA' : ¬A ≤ 0 := by omega
    simp only [createPayment, hA', hfind, has, hbal,
      if_false, if_true, ite_false, ite_true]
    simp
  · intro s acc A ch now a hA hfind has hbal
    have hA' : ¬A ≤ 0 := by omega
    simp only [createWithdrawal, hA', hfind, has, hbal,
      if_false, if_true, ite_false, ite_true]
    simp

/-- Witness for C2 at the spec's own example: balance 250000, request
500000, for each of the three operations. -/
theorem overdraft_rejected_witness :
    createTransfer lowBalanceState 1 2 500000 none =
      (lowBalanceState, .error ⟨422, "INSUFFICIENT_FUNDS",
        "Insufficient balance in source account", some { requested := some 500000 }⟩) ∧
    createPayment lowBalanceState 1 500000 "Acme" "Acme Bank" "123" none =
      (lowBalanceState, .error ⟨422, "INSUFFICIENT_FUNDS",
        "Insufficient balance for payment",
        some { available := some 250000, requested := some 500000 }⟩) ∧
    createWithdrawal lowBalanceState 1 500000 "ATM" ⟨2026, 1, 15, 0⟩ =
      (lowBalanceState, .error ⟨422, "INSUFFICIENT_FUNDS",
        "Insufficient balance for withdrawal", some { requested := some 500000 }⟩) :=
  ⟨overdraft_rejected.1 lowBalanceState 1 2 500000 none
      ⟨1, 10, "0000000001", "USD", 250000, .ACTIVE⟩
      ⟨2, 11, "0000000002", "USD", 0, .ACTIVE⟩
      (by decide) (by decide) rfl rfl rfl rfl rfl (by decide),
   overdraft_rejected.2.1 lowBalanceState 1 500000 "Acme" "Acme Bank" "123" none
      ⟨1, 10, "0000000001", "USD", 250000, .ACTIVE⟩
      (by decide) rfl rfl (by decide),
   overdraft_rejected.2.2 lowBalanceState 1 500000 "ATM" ⟨2026, 1, 15, 0⟩
      ⟨1, 10, "0000000001", "USD", 250000, .ACTIVE⟩
      (by decide) rfl rfl (by decide)⟩

/-! ## C3: ATM daily limit -/

/-- C3: an ATM withdrawal against an active, unexpired debit card of daily
limit L — the earlier preconditions holding — succeeds exactly when today's
(UTC midnight onward) COMPLETED ATM withdrawals on the account plus the
requested amount do not exceed L, and otherwise fails 422
DAILY_LIMIT_EXCEEDED returning the state unchanged: no balance change and no
withdrawal or transaction row. -/
theorem createWithdrawal_atm_daily_limit
    (s : BankState) (acc : Nat) (A : Int) (now : DateTime)
    (a : Account) (card : Card)
    (hA : 0 < A)
    (hfind : findAccount s acc = some a)
    (has : a.status = .ACTIVE)
    (hbal : ¬a.balance < A)
    (hcard : (s.cards.filter (fun c => c.accountId = acc)).find?
        (fun c => c.type = .DEBIT ∧ c.status = .ACTIVE) = some card)
    (hexp : isCardExpired card now = false) :
    (todayAtmSum s.withdrawals acc (todayStart now) + A ≤ card.dailyLimit →
      createWithdrawal s acc A "ATM" now =
        ({ s with
            accounts := updateBalance s.accounts acc (-A),
            transactions := s.transactions ++
              [⟨acc, .DEBIT, A, a.balance - A, "ATM" ++ " withdrawal", .COMPLETED⟩],
            withdrawals := s.withdrawals ++ [⟨acc, A, "ATM", .COMPLETED, now⟩] },
         .ok ⟨acc, A, "ATM", .COMPLETED, now⟩)) ∧
    (card.dailyLimit < todayAtmSum s.withdrawals acc (todayStart now) + A →
      createWithdrawal s acc A "ATM" now =
        (s, .error ⟨422, "DAILY_LIMIT_EXCEEDED", "Card daily limit would be exceeded", none⟩)) := by
  have hA' : ¬A ≤ 0 := by omega
  constructor
  · intro hlim
    have hlim' : ¬card.dailyLimit < todayAtmSum s.withdrawals acc (todayStart now) + A := by
      omega
    simp only [createWithdrawal, hA', hfind, has, hbal, hcard, hexp, hlim',
      if_false, ite_false, createWithdrawal.withdrawApply]
    simp
  · intro hlim
    simp only [createWithdrawal, hA', hfind, has, hbal, hcard, hexp, hlim,
      if_false, ite_false]
    simp

/-- A state with one account, one active debit card of limit 500000 and no
prior withdrawals, for concrete ATM daily-limit runs. -/
def atmState : BankState :=
  { accounts := [⟨1, 10, "0000000001", "USD", 1100000, .ACTIVE⟩],
    transactions := [], cards := [⟨7, 1, .DEBIT, .ACTIVE, 500000, 12, 30⟩],
    withdrawals := [], transfers := [], payments := [], deposits := [] }

/-- The state after a successful ATM withdrawal of the full daily limit. -/
def atmStateAfterLimit : BankState :=
  (createWithdrawal atmState 1 500000 "ATM" ⟨2026, 1, 15, 36000000⟩).1

/-- Witness for C3: with limit 500000 and no prior ATM withdrawals today, a
withdrawal of exactly 500000 succeeds, one of 500001 fails
DAILY_LIMIT_EXCEEDED, and after the successful withdrawal a further
withdrawal of 1 the same day also fails. -/
theorem createWithdrawal_atm_daily_limit_witness :
    (createWithdrawal atmState 1 500000 "ATM" ⟨2026, 1, 15, 36000000⟩).2 =
      .ok ⟨1, 500000, "ATM", .COMPLETED, ⟨2026, 1, 15, 36000000⟩⟩ ∧
    createWithdrawal atmState 1 500001 "ATM" ⟨2026, 1, 15, 36000000⟩ =
      (atmState, .error ⟨422, "DAILY_LIMIT_EXCEEDED", "Card daily limit would be exceeded", none⟩) ∧
    createWithdrawal atmStateAfterLimit 1 1 "ATM" ⟨2026, 1, 15, 37000000⟩ =
      (atmStateAfterLimit, .error ⟨422, "DAILY_LIMIT_EXCEEDED", "Card daily limit would be exceeded", none⟩) := by
  refine ⟨?_, ?_, ?_⟩
  · have h := (createWithdrawal_atm_daily_limit atmState 1 500000 ⟨2026, 1, 15, 36000000⟩
      ⟨1, 10, "0000000001", "USD", 1100000, .ACTIVE⟩ ⟨7, 1, .DEBIT, .ACTIVE, 500000, 12, 30⟩
      (by decide) rfl rfl (by decide) rfl (by decide)).1 (by decide)
    rw [h]
  · exact (createWithdrawal_atm_daily_limit atmState 1 500001 ⟨2026, 1, 15, 36000000⟩
      ⟨1, 10, "0000000001", "USD", 1100000, .ACTIVE⟩ ⟨7, 1, .DEBIT, .ACTIVE, 500000, 12, 30⟩
      (by decide) rfl rfl (by decide) rfl (by decide)).2 (by decide)
  · exact (createWithdrawal_atm_daily_limit atmStateAfterLimit 1 1 ⟨2026, 1, 15, 37000000⟩
      ⟨1, 10, "0000000001", "USD", 600000, .ACTIVE⟩ ⟨7, 1, .DEBIT, .ACTIVE, 500000, 12, 30⟩
      (by decide) (by decide) rfl (by decide) (by decide) (by decide)).2 (by decide)

/-! ## C4: idempotency replay and conflict -/

/-- C4: when a record already exists for the presented Idempotency-Key (and
the body, if non-empty, parses as JSON so the middleware reaches the
lookup), a matching route and body hash replay the stored response body and
status verbatim, and a mismatch in either fails 409 CONFLICT with the fixed
message; in both cases the outcome is a terminal response constructor, never
the handler-invoking `next`/`nextStashed`, so no second underlying record
can be created. -/
theorem idempotencyMiddleware_replay_or_conflict
    (store : List IdempotencyRecord) (hash : String → String)
    (jsonParses : String → Bool) (k method path bodyText : String)
    (rec : IdempotencyRecord)
    (hbody : bodyText = "" ∨ jsonParses bodyText = true)
    (hrec : store.find? (fun r => r.key = k) = some rec) :
    (rec.route = method ++ " " ++ path → rec.body = hash bodyText →
      idempotencyMiddleware store hash jsonParses (some k) method path bodyText =
        .replay rec.response rec.status) ∧
    (¬(rec.route = method ++ " " ++ path ∧ rec.body = hash bodyText) →
      idempotencyMiddleware store hash jsonParses (some k) method path bodyText =
        .conflict 409 "CONFLICT" "Idempotency key already used with a different request") := by
  have hparse : ¬(bodyText ≠ "" ∧ ¬jsonParses bodyText = true) := by
    rcases hbody with h | h
    · intro hc; exact hc.1 h
    · intro hc; exact hc.2 h
  constructor
  · intro hroute hhash
    have hcond : ¬(rec.route ≠ method ++ " " ++ path ∨ rec.body ≠ hash bodyText) := by
      intro hc; rcases hc with hc | hc
      · exact hc hroute
      · exact hc hhash
    simp only [idempotencyMiddleware, hparse, hrec, hcond, if_false, ite_false]
  · intro hmismatch
    have hcond : rec.route ≠ method ++ " " ++ path ∨ rec.body ≠ hash bodyText := by
      by_cases hr : rec.route = method ++ " " ++ path
      · right; intro hb; exact hmismatch ⟨hr, hb⟩
      · left; exact hr
    simp only [idempotencyMiddleware, hparse, hrec, hcond, if_false, ite_false]
    simp [hcond]

/-- Witness for C4: a stored record is replayed on an identical repeat and
conflicts on a different body, with the identity digest standing in for
SHA-256. -/
theorem idempotencyMiddleware_replay_or_conflict_witness :
    idempotencyMiddleware [⟨"key1", "POST /api/v1/transfers", "BODY1", "RESP1", 201⟩]
        (fun str => str) (fun _ => true) (some "key1") "POST" "/api/v1/transfers" "BODY1" =
      .replay "RESP1" 201 ∧
    idempotencyMiddleware [⟨"key1", "POST /api/v1/transfers", "BODY1", "RESP1", 201⟩]
        (fun str => str) (fun _ => true) (some "key1") "POST" "/api/v1/transfers" "BODY2" =
      .conflict 409 "CONFLICT" "Idempotency key already used with a different request" :=
  ⟨(idempotencyMiddleware_replay_or_conflict
      [⟨"key1", "POST /api/v1/transfers", "BODY1", "RESP1", 201⟩]
      (fun str => str) (fun _ => true) "key1" "POST" "/api/v1/transfers" "BODY1"
      ⟨"key1", "POST /api/v1/transfers", "BODY1", "RESP1", 201⟩
      (Or.inr rfl) rfl).1 (by decide) (by decide),
   (idempotencyMiddleware_replay_or_conflict
      [⟨"key1", "POST /api/v1/transfers", "BODY1", "RESP1", 201⟩]
      (fun str => str) (fun _ => true) "key1" "POST" "/api/v1/transfers" "BODY2"
      ⟨"key1", "POST /api/v1/transfers", "BODY1", "RESP1", 201⟩
      (Or.inr rfl) rfl).2 (by decide)⟩

/-! ## C6: the applicable-question pool -/

/-- C6 counterexample: for a customer with an account but no transactions at
all (so in particular no completed transaction anywhere), the session-start
pool still contains last_txn_amount — it is even asked first, being the sole
highest-weight question — refuting the claim that last_txn_amount is
included only when a completed transaction exists. -/
theorem startVerification_pool_counterexample :
    (VerifCustomer.mk "cust1" "Jane" "Doe" "+15550001111"
        [⟨"0000000001", [], []⟩]).accounts.all
      (fun acct => acct.transactions.isEmpty) = true ∧
    startVerification
        (VerifCustomer.mk "cust1" "Jane" "Doe" "+15550001111" [⟨"0000000001", [], []⟩])
        (fun l => l) 0 =
      .ok ({ status := .IN_PROGRESS, confidence := 0, correctAnswers := 0,
             questionsAsked := ["last_txn_amount"], expiresAt := 600000 },
           ⟨"last_txn_amount", 3/10⟩) := by
  constructor
  · rfl
  · rfl

/-- C6 (amended): both pool computations exclude phone_number always and
card_last_four exactly when the customer holds no cards, and include every
other catalog question — last_txn_amount among them — unconditionally
(the filters never consult the customer's transactions); the answer-time
pool is the session-start pool minus the already-asked ids. -/
theorem applicableQuestions_pool (hc : Bool) (asked : List String) :
    ((startAvailableQuestions hc).map Question.id =
      if hc then
        ["last_txn_amount", "account_number", "card_last_four",
         "date_of_birth", "email", "address", "full_name"]
      else
        ["last_txn_amount", "account_number",
         "date_of_birth", "email", "address", "full_name"]) ∧
    nextAvailableQuestions hc asked =
      (startAvailableQuestions hc).filter (fun q => !(asked.contains q.id)) := by
  constructor
  · cases hc <;> rfl
  · cases hc <;>
      simp [nextAvailableQuestions, startAvailableQuestions, ALL_QUESTIONS,
        List.filter_cons]

/-! ## C5: KBA confidence scoring and verification threshold -/

/-- C5: answering the current question of an IN_PROGRESS, unexpired session
adds the question's catalog weight on a correct answer, subtracts half the
weight on an incorrect one, floors the result at 0, persists it as the
session confidence, and marks the session VERIFIED — returning the issued
access token and the minimal customer summary (id, first name, last name) —
exactly when the updated confidence reaches 0.75.  `shuffle` is the random
within-tier permutation, assumed only to keep a nonempty pool nonempty. -/
theorem answerQuestion_confidence_and_verification
    (session : VerificationSession) (customer : VerifCustomer)
    (checker : String → String → Bool) (shuffle : List Question → List Question)
    (questionId answer : String) (nowEpoch tokenNow : Nat)
    (q : Question) (newConf : ℚ)
    (sess' : VerificationSession) (out : Except AppError AnswerOutcome)
    (hrun : answerQuestion session customer checker shuffle questionId answer
        nowEpoch tokenNow = (sess', out))
    (hshuf : ∀ l, shuffle l = [] → l = [])
    (hstatus : session.status = .IN_PROGRESS)
    (hexp : ¬session.expiresAt < nowEpoch)
    (hlast : session.questionsAsked.getLast? = some questionId)
    (hq : ALL_QUESTIONS.find? (fun qq => qq.id = questionId) = some q)
    (hnew : newConf =
      if (if checker questionId answer then session.confidence + q.weight
          else session.confidence - q.weight / 2) < 0 then 0
      else (if checker questionId answer then session.confidence + q.weight
          else session.confidence - q.weight / 2)) :
    0 ≤ newConf ∧
    sess'.confidence = newConf ∧
    ((3/4 : ℚ) ≤ newConf →
      sess'.status = .VERIFIED ∧
      out = .ok (.verified (checker questionId answer) newConf
        (signAccessToken customer.id tokenNow)
        customer.id customer.firstName customer.lastName)) ∧
    (newConf < (3/4 : ℚ) →
      sess'.status ≠ .VERIFIED ∧
      ∀ (b : Bool) (conf : ℚ) (tok : JwtPayload) (cid fn ln : String),
        out ≠ .ok (.verified b conf tok cid fn ln)) := by
  have h0 : 0 ≤ newConf := by
    rw [hnew]
    by_cases hr : (if checker questionId answer then session.confidence + q.weight
        else session.confidence - q.weight / 2) < 0
    · rw [if_pos hr]
    · rw [if_neg hr]; exact not_lt.mp hr
  unfold answerQuestion at hrun
  rw [if_neg (show ¬(session.status ≠ SessionStatus.IN_PROGRESS) from by
    simp [hstatus])] at hrun
  rw [if_neg hexp] at hrun
  rw [if_neg (show ¬(session.questionsAsked.getLast? ≠ some questionId) from by
    simp [hlast])] at hrun
  rw [hq] at hrun
  dsimp only at hrun
  rw [← hnew] at hrun
  by_cases hge : (3/4 : ℚ) ≤ newConf
  · rw [if_pos hge] at hrun
    rw [Prod.mk.injEq] at hrun
    obtain ⟨hs, ho⟩ := hrun
    refine ⟨h0, ?_, fun _ => ⟨?_, ?_⟩, fun hlt => absurd hge (not_le.mpr hlt)⟩
    · rw [← hs]
    · rw [← hs]
    · rw [← ho]
  · rw [if_neg hge] at hrun
    have hlt : newConf < (3/4 : ℚ) := not_le.mp hge
    by_cases hemp : (nextAvailableQuestions (hasCards customer)
        session.questionsAsked).isEmpty = true
    · rw [if_pos hemp] at hrun
      rw [Prod.mk.injEq] at hrun
      obtain ⟨hs, ho⟩ := hrun
      refine ⟨h0, by rw [← hs], fun hge2 => absurd hge2 hge, fun _ => ⟨?_, ?_⟩⟩
      · rw [← hs]; simp
      · intro b conf tok cid fn ln
        rw [← ho]; simp
    · rw [if_neg hemp] at hrun
      cases hsh : shuffle (nextAvailableQuestions (hasCards customer)
          session.questionsAsked) with
      | nil =>
        have hnil := hshuf _ hsh
        rw [hnil] at hemp
        simp at hemp
      | cons nq rest =>
        rw [hsh] at hrun
        dsimp only at hrun
        rw [Prod.mk.injEq] at hrun
        obtain ⟨hs, ho⟩ := hrun
        refine ⟨h0, by rw [← hs], fun hge2 => absurd hge2 hge, fun _ => ⟨?_, ?_⟩⟩
        · rw [← hs]; simp [hstatus]
        · intro b conf tok cid fn ln
          rw [← ho]; simp

/-- Witness for C5: a correct first answer to last_txn_amount (weight 0.30)
lifts a fresh session to confidence 0.30, which stays below 0.75, so the
session is not VERIFIED and the next question is returned. -/
theorem answerQuestion_confidence_and_verification_witness :
    (0 : ℚ) ≤ 3/10 ∧
    (VerificationSession.mk .IN_PROGRESS (3/10) 1
      ["last_txn_amount", "account_number"] 600000).confidence = 3/10 ∧
    (VerificationSession.mk .IN_PROGRESS (3/10) 1
      ["last_txn_amount", "account_number"] 600000).status ≠ .VERIFIED :=
  have h := answerQuestion_confidence_and_verification
    ⟨.IN_PROGRESS, 0, 0, ["last_txn_amount"], 600000⟩
    ⟨"cust1", "Jane", "Doe", "+15550001111", [⟨"0000000001", [], []⟩]⟩
    (fun _ _ => true) (fun l => l) "last_txn_amount" "156500" 1000 5
    ⟨"last_txn_amount", 3/10⟩ (3/10)
    ⟨.IN_PROGRESS, 3/10, 1, ["last_txn_amount", "account_number"], 600000⟩
    (.ok (.nextQuestion true (3/10) ⟨"account_number", 1/4⟩))
    (by unfold answerQuestion
        norm_num [hasCards, nextAvailableQuestions, startAvailableQuestions,
          ALL_QUESTIONS, signAccessToken, List.filter_cons, List.find?]
        simp +decide)
      (fun l hl => hl) rfl (by decide) rfl rfl (by norm_num)
  ⟨h.1, h.2.1, (h.2.2.2 (by norm_num)).1⟩

/-! ## C9: token audience separation -/

/-- C9 counterexample: a validly signed payload whose embedded type claim is
the empty string does not match the customer audience, yet customer
verification accepts it — the source guard is the JS truthiness test
`payload.type && payload.type !== 'customer'`, which an empty-string claim
falls through. -/
theorem verifyAccessToken_empty_type_counterexample :
    verifyAccessToken { sub := "c1", type := some "", iat := 0, exp := 900 } =
      .ok { sub := "c1", type := some "", iat := 0, exp := 900 } ∧
    some "" ≠ some "customer" := by
  constructor
  · rfl
  · decide

/-- C9 (amended): the employee and bot_session verifiers reject every token
whose type claim differs from their audience; the customer verifier rejects
a mismatching type claim only when that claim is truthy (non-empty — absent
or empty type claims pass).  In particular all six cross-audience cases
fail: tokens issued for one audience never verify under either other
verifier, since every issued token carries a non-empty type claim. -/
theorem token_audience_separation :
    (∀ (p : JwtPayload) (t : String), p.type = some t → t ≠ "" → t ≠ "customer" →
      verifyAccessToken p = .error "Invalid token type") ∧
    (∀ p : JwtPayload, p.type ≠ some "employee" →
      verifyEmployeeAccessToken p = .error "Invalid token type") ∧
    (∀ p : JwtPayload, p.type ≠ some "bot_session" →
      verifyBotSessionToken p = .error "Invalid token type") ∧
    (∀ cid now, verifyEmployeeAccessToken (signAccessToken cid now) =
      .error "Invalid token type") ∧
    (∀ cid now, verifyBotSessionToken (signAccessToken cid now) =
      .error "Invalid token type") ∧
    (∀ eid role now, verifyAccessToken (signEmployeeAccessToken eid role now) =
      .error "Invalid token type") ∧
    (∀ eid role now, verifyBotSessionToken (signEmployeeAccessToken eid role now) =
      .error "Invalid token type") ∧
    (∀ cid eid now, verifyAccessToken (signBotSessionToken cid eid now) =
      .error "Invalid token type") ∧
    (∀ cid eid now, verifyEmployeeAccessToken (signBotSessionToken cid eid now) =
      .error "Invalid token type") := by
  refine ⟨?_, ?_, ?_, ?_, ?_, ?_, ?_, ?_, ?_⟩
  · intro p t hp hne hnc
    simp only [verifyAccessToken, hp]
    rw [if_pos ⟨hne, hnc⟩]
  · intro p hp
    simp only [verifyEmployeeAccessToken, if_pos hp]
  · intro p hp
    simp only [verifyBotSessionToken, if_pos hp]
  · intro cid now
    simp [verifyEmployeeAccessToken, signAccessToken]
  · intro cid now
    simp [verifyBotSessionToken, signAccessToken]
  · intro eid role now
    simp [verifyAccessToken, signEmployeeAccessToken]
  · intro eid role now
    simp [verifyBotSessionToken, signEmployeeAccessToken]
  · intro cid eid now
    simp [verifyAccessToken, signBotSessionToken]
  · intro cid eid now
    simp [verifyEmployeeAccessToken, signBotSessionToken]

/-- Witness for C9 at concrete issued tokens for each of the six
cross-audience pairs, plus one mismatch per verifier clause. -/
theorem token_audience_separation_witness :
    verifyAccessToken { sub := "c1", type := some "employee", iat := 0, exp := 900 } =
      .error "Invalid token type" ∧
    verifyEmployeeAccessToken (signAccessToken "c1" 0) = .error "Invalid token type" ∧
    verifyBotSessionToken (signAccessToken "c1" 0) = .error "Invalid token type" ∧
    verifyAccessToken (signEmployeeAccessToken "e1" "ADMIN" 0) = .error "Invalid token type" ∧
    verifyBotSessionToken (signEmployeeAccessToken "e1" "ADMIN" 0) = .error "Invalid token type" ∧
    verifyAccessToken (signBotSessionToken "c1" "e1" 0) = .error "Invalid token type" ∧
    verifyEmployeeAccessToken (signBotSessionToken "c1" "e1" 0) = .error "Invalid token type" :=
  ⟨token_audience_separation.1 { sub := "c1", type := some "employee", iat := 0, exp := 900 }
      "employee" rfl (by decide) (by decide),
   token_audience_separation.2.2.2.1 "c1" 0,
   token_audience_separation.2.2.2.2.1 "c1" 0,
   token_audience_separation.2.2.2.2.2.1 "e1" "ADMIN" 0,
   token_audience_separation.2.2.2.2.2.2.1 "e1" "ADMIN" 0,
   token_audience_separation.2.2.2.2.2.2.2.1 "c1" "e1" 0,
   token_audience_separation.2.2.2.2.2.2.2.2 "c1" "e1" 0⟩

/-! ## C8: card expiry check -/

/-- Every month length lies between 28 and 31 days. -/
theorem daysInMonth_bounds (y m : Nat) :
    28 ≤ daysInMonth y m ∧ daysInMonth y m ≤ 31 := by
  unfold daysInMonth
  split
  · split <;> omega
  · split <;> omega

/-- Calendar validity as the JS `Date` runtime guarantees it: month in
1..12, day within the month, time-of-day below 24 hours. -/
def ValidDateTime (d : DateTime) : Prop :=
  1 ≤ d.month ∧ d.month ≤ 12 ∧ 1 ≤ d.day ∧
    d.day ≤ daysInMonth d.year d.month ∧ d.msOfDay < 86400000

/-- C8 counterexample: a card with expiry text 12/25, examined at noon on
2025-12-31 — a moment inside the expiry month, so not past its last instant
— is nonetheless treated as expired: the source compares against midnight
starting the month's last day, not the month's last instant. -/
theorem isCardExpired_last_day_counterexample :
    isCardExpired ⟨9, 1, .DEBIT, .ACTIVE, 500000, 12, 25⟩ ⟨2025, 12, 31, 43200000⟩ = true ∧
    specCardExpired ⟨9, 1, .DEBIT, .ACTIVE, 500000, 12, 25⟩ ⟨2025, 12, 31, 43200000⟩ = false := by
  constructor
  · decide
  · decide

/-- C8 (amended): the expiry check treats a card as expired exactly when the
current time is past midnight at the *start of the last day* of the expiry
month — i.e. when the spec's "past the last instant of the month" holds, or
already at any point strictly inside the month's final day; when the check
fires and the card's status is neither EXPIRED nor CANCELLED, card update
and ATM withdrawal flip the card to EXPIRED in place and fail 422
CARD_NOT_ACTIVE (Card has expired). -/
theorem card_expiry_check_and_flip :
    (∀ (c : Card) (now : DateTime), 1 ≤ c.expMonth → c.expMonth ≤ 12 →
      ValidDateTime now →
      (isCardExpired c now = true ↔
        (specCardExpired c now = true ∨
          (now.year = 2000 + c.expYear ∧ now.month = c.expMonth ∧
           now.day = daysInMonth (2000 + c.expYear) c.expMonth ∧
           0 < now.msOfDay)))) ∧
    (∀ (s : BankState) (id : Nat) (st : Option CardStatus) (lim : Option Int)
        (now : DateTime) (c : Card),
      findCard s id = some c → isCardExpired c now = true →
      c.status ≠ .EXPIRED → c.status ≠ .CANCELLED →
      updateCard s id st lim now =
        ({ s with cards := setCardStatus s.cards id .EXPIRED },
         .error ⟨422, "CARD_NOT_ACTIVE", "Card has expired", none⟩)) ∧
    (∀ (s : BankState) (acc : Nat) (A : Int) (now : DateTime)
        (a : Account) (card : Card),
      0 < A → findAccount s acc = some a → a.status = .ACTIVE →
      ¬a.balance < A →
      (s.cards.filter (fun cc => cc.accountId = acc)).find?
          (fun cc => cc.type = .DEBIT ∧ cc.status = .ACTIVE) = some card →
      isCardExpired card now = true →
      createWithdrawal s acc A "ATM" now =
        ({ s with cards := setCardStatus s.cards card.id .EXPIRED },
         .error ⟨422, "CARD_NOT_ACTIVE", "Card has expired", none⟩)) := by
  refine ⟨?_, ?_, ?_⟩
  · intro c now hm1 hm2 hv
    obtain ⟨hnm1, hnm2, hnd1, hnd2, hms⟩ := hv
    have hdm := daysInMonth_bounds now.year now.month
    have hde := daysInMonth_bounds (2000 + c.expYear) c.expMonth
    have hde' := daysInMonth_bounds (2000 + c.expYear + 1) 1
    simp only [isCardExpired, specCardExpired, cardExpiryEnd, monthAfterExpiry,
      DateTime.key, decide_eq_true_eq]
    by_cases hym : now.year = 2000 + c.expYear ∧ now.month = c.expMonth
    · obtain ⟨hy, hmm⟩ := hym
      rw [hy, hmm] at hnd2 ⊢
      split <;> (dsimp only; omega)
    · rw [not_and_or] at hym
      split <;> (dsimp only; omega)
  · intro s id st lim now c hfind hexp hne1 hne2
    unfold updateCard
    rw [hfind]
    dsimp only
    rw [if_pos ⟨hexp, hne1, hne2⟩]
  · intro s acc A now a card hA hfind has hbal hcard hexp
    have hA' : ¬A ≤ 0 := by omega
    simp only [createWithdrawal, hA', hfind, has, hbal, hcard, hexp,
      if_false, ite_false, if_true, ite_true]
    simp

/-- A state holding one account and one card whose expiry (12/25) has
passed. -/
def expiredCardState : BankState :=
  { accounts := [⟨1, 10, "0000000001", "USD", 1000000, .ACTIVE⟩],
    transactions := [], cards := [⟨9, 1, .DEBIT, .ACTIVE, 500000, 12, 25⟩],
    withdrawals := [], transfers := [], payments := [], deposits := [] }

/-- Witness for C8: the boundary characterization at noon of the last day of
the expiry month, and the EXPIRED flip plus CARD_NOT_ACTIVE failure of card
update and ATM withdrawal well past expiry. -/
theorem card_expiry_check_and_flip_witness :
    (isCardExpired ⟨9, 1, .DEBIT, .ACTIVE, 500000, 12, 25⟩ ⟨2025, 12, 31, 43200000⟩ = true ↔
      (specCardExpired ⟨9, 1, .DEBIT, .ACTIVE, 500000, 12, 25⟩ ⟨2025, 12, 31, 43200000⟩ = true ∨
        ((2025 : Nat) = 2000 + 25 ∧ (12 : Nat) = 12 ∧
         (31 : Nat) = daysInMonth (2000 + 25) 12 ∧ (0 : Nat) < 43200000))) ∧
    updateCard expiredCardState 9 (some .BLOCKED) none ⟨2026, 3, 10, 0⟩ =
      ({ expiredCardState with
           cards := setCardStatus expiredCardState.cards 9 .EXPIRED },
       .error ⟨422, "CARD_NOT_ACTIVE", "Card has expired", none⟩) ∧
    createWithdrawal expiredCardState 1 100 "ATM" ⟨2026, 3, 10, 0⟩ =
      ({ expiredCardState with
           cards := setCardStatus expiredCardState.cards 9 .EXPIRED },
       .error ⟨422, "CARD_NOT_ACTIVE", "Card has expired", none⟩) :=
  ⟨card_expiry_check_and_flip.1 ⟨9, 1, .DEBIT, .ACTIVE, 500000, 12, 25⟩
      ⟨2025, 12, 31, 43200000⟩ (by decide) (by decide)
      (by unfold ValidDateTime; decide),
   card_expiry_check_and_flip.2.1 expiredCardState 9 (some .BLOCKED) none
      ⟨2026, 3, 10, 0⟩ ⟨9, 1, .DEBIT, .ACTIVE, 500000, 12, 25⟩
      rfl (by decide) (by decide) (by decide),
   card_expiry_check_and_flip.2.2 expiredCardState 1 100 ⟨2026, 3, 10, 0⟩
      ⟨1, 10, "0000000001", "USD", 1000000, .ACTIVE⟩
      ⟨9, 1, .DEBIT, .ACTIVE, 500000, 12, 25⟩
      (by decide) rfl rfl (by decide) rfl (by decide)⟩

/-! ## C10: non-negativity of balances -/

/-- Incrementing one row by a nonnegative delta keeps every balance
nonnegative. -/
theorem nonneg_after_increment (l : List Account) (i : Nat) (A : Int)
    (hA : 0 ≤ A) (hinv : ∀ a ∈ l, 0 ≤ a.balance) :
    ∀ a ∈ updateBalance l i A, 0 ≤ a.balance := by
  intro a' ha'
  obtain ⟨a, hal, rfl⟩ := List.mem_map.1 ha'
  unfold bumpAccount
  split
  · have := hinv a hal
    dsimp only
    omega
  · exact hinv a hal

/-- Decrementing the uniquely-identified row, which the guard found with a
balance covering the amount, keeps every balance nonnegative (ids are the
primary key, hence nodup). -/
theorem nonneg_after_decrement (l : List Account) (i : Nat) (A : Int)
    (fx : Account)
    (hnd : (l.map Account.id).Nodup)
    (hfind : l.find? (fun a => a.id = i) = some fx)
    (hbal : ¬fx.balance < A)
    (hinv : ∀ a ∈ l, 0 ≤ a.balance) :
    ∀ a ∈ updateBalance l i (-A), 0 ≤ a.balance := by
  intro a' ha'
  obtain ⟨a, hal, rfl⟩ := List.mem_map.1 ha'
  unfold bumpAccount
  split
  · rename_i hid
    have hfx_mem : fx ∈ l := List.mem_of_find?_eq_some hfind
    have hfx_id : fx.id = i := by simpa using List.find?_some hfind
    have haf : a = fx :=
      List.inj_on_of_nodup_map hnd hal hfx_mem (by rw [hid, hfx_id])
    subst haf
    dsimp only
    omega
  · exact hinv a hal

set_option maxHeartbeats 1600000 in
/-- C10: starting from a state where every balance is nonnegative (and ids
are the primary key), each of createDeposit, createWithdrawal,
createTransfer and createPayment — success or failure — returns a state in
which every balance is still nonnegative; the three debiting operations
leave the state entirely unchanged and return an error, never a success,
whenever the source balance is below the requested amount, and a deposit of
a non-positive amount is rejected outright. -/
theorem balances_nonneg_invariant :
    (∀ (s : BankState) (acc : Nat) (A : Int) (src : String),
      (∀ a ∈ s.accounts, 0 ≤ a.balance) →
      ∀ a ∈ (createDeposit s acc A src).1.accounts, 0 ≤ a.balance) ∧
    (∀ (s : BankState) (acc : Nat) (A : Int) (ch : String) (now : DateTime),
      (s.accounts.map Account.id).Nodup →
      (∀ a ∈ s.accounts, 0 ≤ a.balance) →
      ∀ a ∈ (createWithdrawal s acc A ch now).1.accounts, 0 ≤ a.balance) ∧
    (∀ (s : BankState) (X Y : Nat) (A : Int) (d : Option String),
      (s.accounts.map Account.id).Nodup →
      (∀ a ∈ s.accounts, 0 ≤ a.balance) →
      ∀ a ∈ (createTransfer s X Y A d).1.accounts, 0 ≤ a.balance) ∧
    (∀ (s : BankState) (acc : Nat) (A : Int) (bn bb ba : String)
        (d : Option String),
      (s.accounts.map Account.id).Nodup →
      (∀ a ∈ s.accounts, 0 ≤ a.balance) →
      ∀ a ∈ (createPayment s acc A bn bb ba d).1.accounts, 0 ≤ a.balance) ∧
    (∀ (s : BankState) (acc : Nat) (A : Int) (src : String), A ≤ 0 →
      createDeposit s acc A src =
        (s, .error ⟨422, "VALIDATION_ERROR", "Amount must be greater than 0", none⟩)) ∧
    (∀ (s : BankState) (acc : Nat) (A : Int) (ch : String) (now : DateTime)
        (a : Account),
      0 < A → findAccount s acc = some a → a.status = .ACTIVE → a.balance < A →
      (createWithdrawal s acc A ch now).1 = s ∧
      ∀ r, (createWithdrawal s acc A ch now).2 ≠ .ok r) ∧
    (∀ (s : BankState) (X Y : Nat) (A : Int) (d : Option String) (fx : Account),
      0 < A → findAccount s X = some fx → fx.balance < A →
      (createTransfer s X Y A d).1 = s ∧
      ∀ r, (createTransfer s X Y A d).2 ≠ .ok r) ∧
    (∀ (s : BankState) (acc : Nat) (A : Int) (bn bb ba : String)
        (d : Option String) (a : Account),
      0 < A → findAccount s acc = some a → a.balance < A →
      (createPayment s acc A bn bb ba d).1 = s ∧
      ∀ r, (createPayment s acc A bn bb ba d).2 ≠ .ok r) := by
  refine ⟨?_, ?_, ?_, ?_, ?_, ?_, ?_, ?_⟩
  · intro s acc A src hinv
    unfold createDeposit
    split
    · exact hinv
    · rename_i hA
      split
      · exact hinv
      · rename_i account heq
        split
        · split
          · exact hinv
          · exact hinv
        · exact nonneg_after_increment s.accounts acc A (by omega) hinv
  · intro s acc A ch now hnd hinv
    unfold createWithdrawal
    split
    · exact hinv
    · rename_i hA
      split
      · exact hinv
      · rename_i account heq
        split
        · split
          · exact hinv
          · exact hinv
        · rename_i hact
          split
          · exact hinv
          · rename_i hbal
            have hdec := nonneg_after_decrement s.accounts acc A account hnd
              (by exact heq) hbal hinv
            split
            · dsimp only
              split
              · split
                · split
                  · exact hinv
                  · exact hinv
                · exact hinv
              · split
                · exact hinv
                · split
                  · exact hinv
                  · exact hdec
            · exact hdec
  · intro s X Y A d hnd hinv
    unfold createTransfer
    split
    · exact hinv
    · split
      · exact hinv
      · split
        · exact hinv
        · exact hinv
        · rename_i o1 o2 fromAccount toAccount hfrom hto
          split
          · exact hinv
          · split
            · exact hinv
            · split
              · exact hinv
              · split
                · exact hinv
                · split
                  · exact hinv
                  · split
                    · exact hinv
                    · rename_i hA hXY hfF hfC htF htC hcur hbal
                      exact nonneg_after_increment _ Y A (by omega)
                        (nonneg_after_decrement s.accounts X A fromAccount hnd
                          hfrom hbal hinv)
  · intro s acc A bn bb ba d hnd hinv
    unfold createPayment
    split
    · exact hinv
    · rename_i hA
      split
      · exact hinv
      · rename_i account heq
        split
        · exact hinv
        · split
          · exact hinv
          · split
            · exact hinv
            · rename_i hbal
              exact nonneg_after_decrement s.accounts acc A account hnd heq
                hbal hinv
  · intro s acc A src hA
    unfold createDeposit
    rw [if_pos hA]
  · intro s acc A ch now a hA hfind has hbal
    unfold createWithdrawal
    split
    · omega
    · split
      · rename_i heq
        rw [hfind] at heq
        exact Option.noConfusion heq
      · rename_i account heq
        rw [hfind] at heq
        rw [Option.some.injEq] at heq
        subst heq
        split
        · split
          · exact ⟨rfl, fun r h => Except.noConfusion h⟩
          · exact ⟨rfl, fun r h => Except.noConfusion h⟩
        · exact ⟨rfl, fun r h => Except.noConfusion h⟩
  · intro s X Y A d fx hA hfind hbal
    rcases hres : createTransfer s X Y A d with ⟨s2, r2⟩
    have hdone : ∀ (e : AppError), (s, Except.error e) = (s2, r2) →
        (s2, r2).1 = s ∧ ∀ r, (s2, r2).2 ≠ Except.ok r := by
      intro e he
      rw [Prod.mk.injEq] at he
      obtain ⟨h1, h2⟩ := he
      refine ⟨h1.symm, fun r hr => ?_⟩
      rw [← h2] at hr
      exact Except.noConfusion hr
    unfold createTransfer at hres
    split at hres
    · exact hdone _ hres
    · split at hres
      · exact hdone _ hres
      · split at hres
        · exact hdone _ hres
        · exact hdone _ hres
        · rename_i o1 o2 fromAccount toAccount hfrom hto
          rw [hfind] at hfrom
          rw [Option.some.injEq] at hfrom
          subst hfrom
          split at hres
          · exact hdone _ hres
          · split at hres
            · exact hdone _ hres
            · split at hres
              · exact hdone _ hres
              · split at hres
                · exact hdone _ hres
                · split at hres
                  · exact hdone _ hres
                  · exact hdone _ hres
  · intro s acc A bn bb ba d a hA hfind hbal
    unfold createPayment
    split
    · omega
    · split
      · rename_i heq
        rw [hfind] at heq
        exact Option.noConfusion heq
      · rename_i account heq
        rw [hfind] at heq
        rw [Option.some.injEq] at heq
        subst heq
        split
        · exact ⟨rfl, fun r h => Except.noConfusion h⟩
        · split
          · exact ⟨rfl, fun r h => Except.noConfusion h⟩
          · exact ⟨rfl, fun r h => Except.noConfusion h⟩

/-- Witness for C10: a deposit of 500 into the sample state keeps the
credited account nonnegative, and a teller withdrawal of 500000 against a
balance of 250000 leaves the state untouched and is not a success. -/
theorem balances_nonneg_invariant_witness :
    (0 : Int) ≤ (Account.mk 1 10 "0000000001" "USD" 100500 .ACTIVE).balance ∧
    (createWithdrawal lowBalanceState 1 500000 "TELLER" ⟨2026, 1, 15, 0⟩).1 =
      lowBalanceState ∧
    (createWithdrawal lowBalanceState 1 500000 "TELLER" ⟨2026, 1, 15, 0⟩).2 ≠
      .ok ⟨1, 500000, "TELLER", .COMPLETED, ⟨2026, 1, 15, 0⟩⟩ :=
  ⟨balances_nonneg_invariant.1 sampleState 1 500 "CASH" (by decide)
      ⟨1, 10, "0000000001", "USD", 100500, .ACTIVE⟩ (by decide),
   (balances_nonneg_invariant.2.2.2.2.2.1 lowBalanceState 1 500000 "TELLER"
      ⟨2026, 1, 15, 0⟩ ⟨1, 10, "0000000001", "USD", 250000, .ACTIVE⟩
      (by decide) rfl rfl (by decide)).1,
   (balances_nonneg_invariant.2.2.2.2.2.1 lowBalanceState 1 500000 "TELLER"
      ⟨2026, 1, 15, 0⟩ ⟨1, 10, "0000000001", "USD", 250000, .ACTIVE⟩
      (by decide) rfl rfl (by decide)).2
     ⟨1, 500000, "TELLER", .COMPLETED, ⟨2026, 1, 15, 0⟩⟩⟩

end BankApi
